import Mathlib

/-!
Shallow embedding of the ephemeris / price-level / cycle-timing engine of
`src/app.py` (class `RobustAstronomy` and the free functions
`calculate_planetary_price_levels`, `calculate_time_cycles`,
`identify_trading_zones`, `get_robust_planetary_positions`).

Modelling conventions:
* Python floats are modelled as rationals (`ℚ`); float rounding is out of scope.
* Python `%` on reals is `pymod` (`x - m * ⌊x / m⌋`), Python `int()` is
  truncation toward zero (`pyint`), Python `//` on integers is `Int.fdiv`.
* The transcendental operations (`math.sin`, `math.cos`, `math.atan2`,
  `math.sqrt`, `math.pi`) cannot be rational-valued; they are abstracted as an
  explicit oracle record `RealOps` over `ℚ`, and every theorem about code that
  uses them quantifies over the oracle.
* Fallible code (`return None`) is embedded with `Option`; `none` is the
  error signal for an unknown body identifier.
* Presentation-only string fields (market-impact text, emojis, report
  formatting) are omitted; all numeric fields are kept.
-/

/-- Python `int(q)` on a real value: truncation toward zero. -/
def pyint (q : ℚ) : ℤ := if 0 ≤ q then ⌊q⌋ else ⌈q⌉

/-- Python `x % m` on real operands: `x - m * floor (x / m)`. -/
def pymod (x m : ℚ) : ℚ := x - m * ⌊x / m⌋

/-- `RobustAstronomy.julian_day` (src/app.py lines 23-36). -/
def julian_day (year month : ℤ) (day hour : ℚ) : ℚ :=
  let year' : ℤ := if month ≤ 2 then year - 1 else year
  let month' : ℤ := if month ≤ 2 then month + 12 else month
  let A : ℤ := Int.fdiv year' 100
  let B : ℤ := 2 - A + Int.fdiv A 4
  let JD : ℚ := (pyint ((365.25 : ℚ) * ((year' : ℚ) + 4716)) : ℚ)
      + (pyint ((30.6001 : ℚ) * ((month' : ℚ) + 1)) : ℚ)
      + day + (B : ℚ) - 1524.5
  JD + hour / 24

/-- Oracle for the transcendental operations of `math`; every theorem about
code using them holds for an arbitrary oracle. -/
structure RealOps where
  sin : ℚ → ℚ
  cos : ℚ → ℚ
  atan2 : ℚ → ℚ → ℚ
  sqrt : ℚ → ℚ
  pi : ℚ

namespace RealOps

/-- `math.radians` -/
def radians (R : RealOps) (x : ℚ) : ℚ := x * R.pi / 180

/-- `math.degrees` -/
def degreesOf (R : RealOps) (x : ℚ) : ℚ := x * 180 / R.pi

/-- A trivial concrete oracle, used to evaluate the embedding at concrete
inputs (any oracle works in the theorems). -/
def zeroOps : RealOps where
  sin _ := 0
  cos _ := 0
  atan2 _ _ := 0
  sqrt _ := 0
  pi := 0

end RealOps

/-- Result record of the position functions (`longitude`, `latitude`,
`distance`, `speed` keys of the returned dict). -/
structure BodyPos where
  longitude : ℚ
  latitude : ℚ
  distance : ℚ
  speed : ℚ
deriving Repr, DecidableEq

/-- `RobustAstronomy.sun_position` (src/app.py lines 52-77). -/
def sun_position (R : RealOps) (jd : ℚ) : BodyPos :=
  let T : ℚ := (jd - 2451545.0) / 36525.0
  let L0 : ℚ := 280.46646 + 36000.76983 * T + 0.0003032 * T * T
  let M : ℚ := 357.52911 + 35999.05029 * T - 0.0001537 * T * T
  let M_rad : ℚ := R.radians M
  let C : ℚ := (1.914602 - 0.004817 * T - 0.000014 * T * T) * R.sin M_rad
      + (0.019993 - 0.000101 * T) * R.sin (2 * M_rad)
      + 0.000289 * R.sin (3 * M_rad)
  let true_longitude : ℚ := pymod (L0 + C) 360
  { longitude := true_longitude
    latitude := 0.0
    distance := 1.000001018 * (1 - 0.01671123 * R.cos M_rad)
    speed := 0.9856 + 0.0167 * R.sin M_rad }

/-- `RobustAstronomy.moon_position` (src/app.py lines 79-144). -/
def moon_position (R : RealOps) (jd : ℚ) : BodyPos :=
  let T : ℚ := (jd - 2451545.0) / 36525.0
  let L_prime : ℚ := 218.3164477 + 481267.88123421 * T - 0.0015786 * T * T
  let D : ℚ := 297.8501921 + 445267.1114034 * T - 0.0018819 * T * T
  let M : ℚ := 357.5291092 + 35999.0502909 * T - 0.0001536 * T * T
  let M_prime : ℚ := 134.9633964 + 477198.8675055 * T + 0.0087414 * T * T
  let F : ℚ := 93.272095 + 483202.0175233 * T - 0.0036539 * T * T
  let D_rad : ℚ := R.radians D
  let M_rad : ℚ := R.radians M
  let M_prime_rad : ℚ := R.radians M_prime
  let F_rad : ℚ := R.radians F
  let longitude_correction : ℚ :=
      6.288774 * R.sin M_prime_rad
      + 1.274027 * R.sin (2 * D_rad - M_prime_rad)
      + 0.658314 * R.sin (2 * D_rad)
      + 0.213618 * R.sin (2 * M_prime_rad)
      + (-0.185116) * R.sin M_rad
      + (-0.114332) * R.sin (2 * F_rad)
      + 0.058793 * R.sin (2 * D_rad - 2 * M_prime_rad)
      + 0.057066 * R.sin (2 * D_rad - M_rad - M_prime_rad)
      + 0.053322 * R.sin (2 * D_rad + M_prime_rad)
      + 0.045758 * R.sin (2 * D_rad - M_rad)
  let latitude_correction : ℚ :=
      5.128122 * R.sin F_rad
      + 0.280602 * R.sin (M_prime_rad + F_rad)
      + 0.277693 * R.sin (M_prime_rad - F_rad)
      + 0.173237 * R.sin (2 * D_rad - F_rad)
      + 0.055413 * R.sin (2 * D_rad - M_prime_rad + F_rad)
  let longitude : ℚ := pymod (L_prime + longitude_correction) 360
  let distance : ℚ := (385000.56 + (-20905.355 * R.cos M_prime_rad)) / 384400
  { longitude := longitude
    latitude := latitude_correction
    distance := distance
    speed := 13.176358 + 1.434006 * R.cos M_prime_rad }

/-- The six J2000.0 orbital elements plus their six linear rates
(per-planet constants of `planet_position`). -/
structure OrbitalElements where
  a : ℚ
  e : ℚ
  I : ℚ
  L : ℚ
  long_peri : ℚ
  long_node : ℚ
  a_dot : ℚ
  e_dot : ℚ
  I_dot : ℚ
  L_dot : ℚ
  long_peri_dot : ℚ
  long_node_dot : ℚ
deriving Repr, DecidableEq

/-- The `elements` table of `planet_position` (src/app.py lines 151-200);
`none` for a body identifier absent from the table. -/
def elements : String → Option OrbitalElements
  | "Mercury" => some
      { a := 0.38709927, e := 0.20563593, I := 7.00497902,
        L := 252.25032350, long_peri := 77.45779628, long_node := 48.33076593,
        a_dot := 0.00000037, e_dot := 0.00001906, I_dot := -0.00594749,
        L_dot := 149472.67411175, long_peri_dot := 0.16047689, long_node_dot := -0.12534081 }
  | "Venus" => some
      { a := 0.72333566, e := 0.00677672, I := 3.39467605,
        L := 181.97909950, long_peri := 131.60246718, long_node := 76.67984255,
        a_dot := 0.00000390, e_dot := -0.00004107, I_dot := -0.00078890,
        L_dot := 58517.81538729, long_peri_dot := 0.00268329, long_node_dot := -0.27769418 }
  | "Mars" => some
      { a := 1.52371034, e := 0.09339410, I := 1.84969142,
        L := -4.55343205, long_peri := -23.94362959, long_node := 49.55953891,
        a_dot := 0.00001847, e_dot := 0.00007882, I_dot := -0.00813131,
        L_dot := 19140.30268499, long_peri_dot := 0.44441088, long_node_dot := -0.29257343 }
  | "Jupiter" => some
      { a := 5.20288700, e := 0.04838624, I := 1.30439695,
        L := 34.39644051, long_peri := 14.72847983, long_node := 100.47390909,
        a_dot := -0.00011607, e_dot := -0.00013253, I_dot := -0.00183714,
        L_dot := 3034.74612775, long_peri_dot := 0.21252668, long_node_dot := 0.20469106 }
  | "Saturn" => some
      { a := 9.53667594, e := 0.05386179, I := 2.48599187,
        L := 49.95424423, long_peri := 92.59887831, long_node := 113.66242448,
        a_dot := -0.00125060, e_dot := -0.00050991, I_dot := 0.00193609,
        L_dot := 1222.49362201, long_peri_dot := -0.41897216, long_node_dot := -0.28867794 }
  | "Uranus" => some
      { a := 19.18916464, e := 0.04725744, I := 0.77263783,
        L := 313.23810451, long_peri := 170.95427630, long_node := 74.01692503,
        a_dot := -0.00196176, e_dot := -0.00004397, I_dot := -0.00242939,
        L_dot := 428.48202785, long_peri_dot := 0.40805281, long_node_dot := 0.04240589 }
  | "Neptune" => some
      { a := 30.06992276, e := 0.00859048, I := 1.77004347,
        L := -55.12002969, long_peri := 44.96476227, long_node := 131.78422574,
        a_dot := 0.00026291, e_dot := 0.00005105, I_dot := 0.00035372,
        L_dot := 218.45945325, long_peri_dot := -0.32241464, long_node_dot := -0.00508664 }
  | "Pluto" => some
      { a := 39.48211675, e := 0.24882730, I := 17.14001206,
        L := 238.92903833, long_peri := 224.06891629, long_node := 110.30393684,
        a_dot := -0.00031596, e_dot := 0.00005170, I_dot := 0.00004818,
        L_dot := 145.20780515, long_peri_dot := -0.04062942, long_node_dot := -0.01183482 }
  | _ => none

/-- `RobustAstronomy.planet_position` (src/app.py lines 146-245).
Returns `none` (the `return None` of line 203) for an unknown body.
The local `w = long_peri - long_node` of the source is dead code and omitted;
`I` and `long_node` are computed but unused for the returned fields. -/
def planet_position (R : RealOps) (planet_name : String) (jd : ℚ) : Option BodyPos :=
  match elements planet_name with
  | none => none
  | some elem =>
    let T : ℚ := (jd - 2451545.0) / 36525.0
    let a : ℚ := elem.a + elem.a_dot * T
    let e : ℚ := elem.e + elem.e_dot * T
    let L : ℚ := elem.L + elem.L_dot * T
    let long_peri : ℚ := elem.long_peri + elem.long_peri_dot * T
    let M : ℚ := pymod (L - long_peri) 360
    let M_rad : ℚ := R.radians M
    let E : ℚ := M_rad + e * R.sin M_rad
    let nu : ℚ := 2 * R.atan2 (R.sqrt (1 + e) * R.sin (E / 2))
        (R.sqrt (1 - e) * R.cos (E / 2))
    let longitude : ℚ := pymod (R.degreesOf nu + long_peri) 360
    let r : ℚ := a * (1 - e * R.cos E)
    let n : ℚ := elem.L_dot / 36525.0
    some { longitude := longitude, latitude := 0.0, distance := r, speed := n }

/-- Entry of the `PLANETARY_CYCLES` table (src/app.py lines 251-262). -/
structure CycleInfo where
  cycle_hours : ℚ
  major_degrees : List ℚ
  influence : String
deriving Repr, DecidableEq

/-- The `PLANETARY_CYCLES` table (src/app.py lines 251-262). -/
def PLANETARY_CYCLES : String → Option CycleInfo
  | "Sun" => some ⟨24, [0, 90, 180, 270], "Major trend direction"⟩
  | "Moon" => some ⟨2.2, [0, 90, 180, 270], "Intraday volatility spikes"⟩
  | "Mercury" => some ⟨48, [0, 90, 180, 270], "News-driven moves"⟩
  | "Venus" => some ⟨72, [0, 90, 180, 270], "Value-based support/resistance"⟩
  | "Mars" => some ⟨96, [0, 90, 180, 270], "Aggressive breakouts/breakdowns"⟩
  | "Jupiter" => some ⟨168, [0, 90, 180, 270], "Major support zones"⟩
  | "Saturn" => some ⟨336, [0, 90, 180, 270], "Strong resistance barriers"⟩
  | "Uranus" => some ⟨504, [0, 180], "Sudden reversals"⟩
  | "Neptune" => some ⟨720, [0, 180], "Deceptive moves"⟩
  | "Pluto" => some ⟨1440, [0, 180], "Transformation levels"⟩
  | _ => none

/-- The ten body identifiers that key `PLANETARY_CYCLES`. -/
def cycle_planets : List String :=
  ["Sun", "Moon", "Mercury", "Venus", "Mars", "Jupiter", "Saturn",
   "Uranus", "Neptune", "Pluto"]

/-- `get_zodiac_sign` (src/app.py lines 264-269). -/
def get_zodiac_sign (longitude : ℚ) : String :=
  let signs := ["Aries", "Taurus", "Gemini", "Cancer", "Leo", "Virgo",
      "Libra", "Scorpio", "Sagittarius", "Capricorn", "Aquarius", "Pisces"]
  signs.getD ((⌊longitude / 30⌋).emod 12).toNat ""

/-- A value of the `planet_data` dict built by
`get_robust_planetary_positions`. -/
structure PlanetData where
  longitude : ℚ
  latitude : ℚ
  distance : ℚ
  speed : ℚ
  sign : String
  degree_in_sign : ℚ
  retrograde : Bool
deriving Repr, DecidableEq

/-- An entry of the `planet_ranges` table of
`calculate_planetary_price_levels` (src/app.py lines 623-634). -/
structure Ranges where
  major : ℚ
  primary : ℚ
  minor : ℚ
deriving Repr, DecidableEq

/-- The `planet_ranges` table (src/app.py lines 623-634). -/
def planet_ranges : String → Option Ranges
  | "Sun" => some ⟨1.8, 0.9, 0.25⟩
  | "Moon" => some ⟨3.2, 1.6, 0.45⟩
  | "Mercury" => some ⟨1.5, 0.7, 0.2⟩
  | "Venus" => some ⟨2.1, 1.1, 0.35⟩
  | "Mars" => some ⟨4.2, 2.1, 0.65⟩
  | "Jupiter" => some ⟨3.8, 1.9, 0.55⟩
  | "Saturn" => some ⟨2.9, 1.45, 0.4⟩
  | "Uranus" => some ⟨5.5, 2.7, 0.8⟩
  | "Neptune" => some ⟨2.5, 1.25, 0.35⟩
  | "Pluto" => some ⟨3.5, 1.75, 0.5⟩
  | _ => none

/-- The `planet_multipliers` dict (src/app.py lines 644-655), keyed by body,
built from the wrapped longitude. -/
def planet_multipliers (longitude : ℚ) : String → Option ℚ
  | "Sun" => some (longitude / 360)
  | "Moon" => some ((longitude + 90) / 360)
  | "Mercury" => some ((longitude + 45) / 360)
  | "Venus" => some ((longitude + 135) / 360)
  | "Mars" => some ((longitude + 180) / 360)
  | "Jupiter" => some ((longitude + 225) / 360)
  | "Saturn" => some ((longitude + 270) / 360)
  | "Uranus" => some ((longitude + 315) / 360)
  | "Neptune" => some ((longitude + 60) / 360)
  | "Pluto" => some ((longitude + 120) / 360)
  | _ => none

/-- The `directional_bias` dict (src/app.py lines 662-665). -/
def directional_bias : String → Option ℚ
  | "Sun" => some 0
  | "Moon" => some (-0.2)
  | "Mercury" => some 0.1
  | "Venus" => some 0.15
  | "Mars" => some (-0.3)
  | "Jupiter" => some 0.25
  | "Saturn" => some (-0.4)
  | "Uranus" => some 0
  | "Neptune" => some (-0.1)
  | "Pluto" => some 0.05
  | _ => none

/-- The seven-entry `levels` dict (src/app.py lines 677-685). -/
structure Levels where
  major_resistance : ℚ
  primary_resistance : ℚ
  minor_resistance : ℚ
  current_level : ℚ
  minor_support : ℚ
  primary_support : ℚ
  major_support : ℚ
deriving Repr, DecidableEq

/-- The `levels` computation from the adjusted percentages
(src/app.py lines 670-685): percentage tiers scaled by the influence
multiplier, then shifted asymmetrically by the directional bias. -/
def mk_levels (current_price : ℚ) (ranges : Ranges) (total_multiplier bias : ℚ) :
    Levels :=
  let major_pct := ranges.major * total_multiplier
  let primary_pct := ranges.primary * total_multiplier
  let minor_pct := ranges.minor * total_multiplier
  let resistance_multiplier := 1.0 - bias
  let support_multiplier := 1.0 + bias
  { major_resistance := current_price * (1 + (major_pct * resistance_multiplier) / 100)
    primary_resistance := current_price * (1 + (primary_pct * resistance_multiplier) / 100)
    minor_resistance := current_price * (1 + (minor_pct * resistance_multiplier) / 100)
    current_level := current_price
    minor_support := current_price * (1 - (minor_pct * support_multiplier) / 100)
    primary_support := current_price * (1 - (primary_pct * support_multiplier) / 100)
    major_support := current_price * (1 - (major_pct * support_multiplier) / 100) }

/-- A value of the dict returned by `calculate_planetary_price_levels`
(src/app.py lines 689-699); the formatted `sign` string and the `influence`
flavor string are presentation-only and omitted. -/
structure PlanetPriceInfo where
  current_degree : ℚ
  speed : ℚ
  levels : Levels
  strength : ℚ
  bias : ℚ
  multiplier : ℚ
  retrograde : Bool
deriving Repr, DecidableEq

/-- The influence multiplier `total_multiplier` of
`calculate_planetary_price_levels` (src/app.py lines 640-659), from the
wrapped longitude and the absolute speed. -/
def total_multiplier_of (planet_name : String) (data_longitude data_speed : ℚ) : ℚ :=
  let longitude := pymod data_longitude 360
  let speed := |data_speed|
  let base_multiplier := (planet_multipliers longitude planet_name).getD (longitude / 360)
  let speed_influence := min (speed * 5) 30 / 100
  0.6 + 0.8 * base_multiplier + speed_influence

/-- The loop body of `calculate_planetary_price_levels`
(src/app.py lines 636-699) for a single `(planet_name, data)` item;
`none` when the body is not in `PLANETARY_CYCLES`. -/
def price_level_info (planet_name : String) (data : PlanetData)
    (current_price : ℚ) : Option PlanetPriceInfo :=
  match PLANETARY_CYCLES planet_name with
  | none => none
  | some _ =>
    let ranges := (planet_ranges planet_name).getD ⟨2.0, 1.0, 0.3⟩
    let longitude := pymod data.longitude 360
    let speed := |data.speed|
    let total_multiplier := total_multiplier_of planet_name data.longitude data.speed
    let bias := (directional_bias planet_name).getD 0
    let levels := mk_levels current_price ranges total_multiplier bias
    let strength := 30 + speed * 15 + (360 - pymod longitude 30) / 30 * 25
        + total_multiplier * 30
    some
      { current_degree := longitude
        speed := data.speed
        levels := levels
        strength := min (max strength 10) 100
        bias := bias
        multiplier := total_multiplier
        retrograde := data.retrograde }

/-- `calculate_planetary_price_levels` (src/app.py lines 615-701), over an
association list in place of the Python dict. -/
def calculate_planetary_price_levels (planet_data : List (String × PlanetData))
    (current_price : ℚ) : List (String × PlanetPriceInfo) :=
  planet_data.filterMap fun p =>
    (price_level_info p.1 p.2 current_price).map fun info => (p.1, info)

/-- An entry of the `daily_cycles` list built by `calculate_time_cycles`
(src/app.py lines 725-734); `time_ist` is modelled as rational hours on a
timeline (`base_time + hours_away` for `base_time + timedelta(...)`); the
`market_impact` / `trading_action` / `price_effect` strings are
presentation-only and omitted. -/
structure CycleEvent where
  planet : String
  target_degree : ℚ
  time_ist : ℚ
  hours_away : ℚ
  strength : ℚ
deriving Repr, DecidableEq

/-- `speed_per_hour` of `calculate_time_cycles` (src/app.py line 713):
the absolute speed per hour floored at the 0.001 epsilon. -/
def speed_per_hour_of (speed : ℚ) : ℚ := max (|speed| / 24) 0.001

/-- `hours_to_target` of `calculate_time_cycles` (src/app.py lines 716-720):
forward angular distance remapped to (-180, 180], divided by the floored
hourly speed. -/
def hours_to_target_of (current_degree speed target_degree : ℚ) : ℚ :=
  let d0 := pymod (target_degree - current_degree) 360
  let degrees_to_travel := if 180 < d0 then d0 - 360 else d0
  degrees_to_travel / speed_per_hour_of speed

/-- The body of the target-degree loop of `calculate_time_cycles`
(src/app.py lines 715-734): the optional event for one target degree,
emitted exactly when `0 <= abs(hours_to_target) <= 24`. -/
def cycle_event_opt (planet_name : String) (current_degree speed base_time : ℚ)
    (target_degree : ℚ) : Option CycleEvent :=
  let hours := hours_to_target_of current_degree speed target_degree
  if 0 ≤ |hours| ∧ |hours| ≤ 24 then
    some
      { planet := planet_name
        target_degree := target_degree
        time_ist := base_time + hours
        hours_away := hours
        strength := max (50 - |hours|) 10 }
  else none

/-- The inner loop of `calculate_time_cycles` for one `(planet_name, data)`
item (src/app.py lines 710-734): one optional event per entry of the body's
`major_degrees` table. -/
def cycle_events_for (planet_name : String) (data : PlanetData)
    (base_time : ℚ) : List CycleEvent :=
  match PLANETARY_CYCLES planet_name with
  | none => []
  | some cyc =>
    let current_degree := pymod data.longitude 360
    cyc.major_degrees.filterMap
      (cycle_event_opt planet_name current_degree data.speed base_time)

/-- Stable insertion into a list ascending by `|hours_away|`. -/
def insert_by_abs_hours (e : CycleEvent) : List CycleEvent → List CycleEvent
  | [] => [e]
  | x :: xs =>
    if |e.hours_away| ≤ |x.hours_away| then e :: x :: xs
    else x :: insert_by_abs_hours e xs

/-- The `sorted(daily_cycles, key=lambda x: abs(x["hours_away"]))` of
src/app.py line 736 (stable insertion sort). -/
def sort_cycles (l : List CycleEvent) : List CycleEvent :=
  l.foldr insert_by_abs_hours []

/-- `calculate_time_cycles` (src/app.py lines 703-736), over an association
list in place of the Python dict. -/
def calculate_time_cycles (planet_data : List (String × PlanetData))
    (base_time : ℚ) : List CycleEvent :=
  sort_cycles
    (planet_data.foldr (fun p acc => cycle_events_for p.1 p.2 base_time ++ acc) [])

/-- An entry of the `sell_zones` / `buy_zones` lists of
`identify_trading_zones` (src/app.py lines 827-836 and 846-855). -/
structure TradingZone where
  planet : String
  level_name : String
  price : ℚ
  distance : ℚ
  distance_pct : ℚ
  strength : ℚ
  zone_strength : String
  priority : ℕ
deriving Repr, DecidableEq

/-- The `zone_strength` classification (src/app.py lines 825 and 844). -/
def zone_strength_of (strength : ℚ) : String :=
  if 70 < strength then "HIGH" else if 50 < strength then "MEDIUM" else "LOW"

/-- The `priority` classification (src/app.py lines 835 and 854). -/
def priority_of (distance_pct : ℚ) : ℕ :=
  if distance_pct ≤ 1.5 then 1 else if distance_pct ≤ 3.0 then 2 else 3

/-- The three resistance levels in loop order (src/app.py line 820), with
the `replace("_", " ")` of line 829 applied to the names. -/
def resistance_items (levels : Levels) : List (String × ℚ) :=
  [("Minor Resistance", levels.minor_resistance),
   ("Primary Resistance", levels.primary_resistance),
   ("Major Resistance", levels.major_resistance)]

/-- The three support levels in loop order (src/app.py line 839). -/
def support_items (levels : Levels) : List (String × ℚ) :=
  [("Minor Support", levels.minor_support),
   ("Primary Support", levels.primary_support),
   ("Major Support", levels.major_support)]

/-- The resistance loop of `identify_trading_zones` for one body
(src/app.py lines 819-836): a sell-zone entry for each level strictly above
the current price. -/
def sell_zones_for (planet : String) (info : PlanetPriceInfo)
    (current_price : ℚ) : List TradingZone :=
  (resistance_items info.levels).filterMap fun item =>
    if current_price < item.2 then
      let distance_pct := (item.2 - current_price) / current_price * 100
      some
        { planet := planet
          level_name := item.1
          price := item.2
          distance := item.2 - current_price
          distance_pct := distance_pct
          strength := info.strength
          zone_strength := zone_strength_of info.strength
          priority := priority_of distance_pct }
    else none

/-- The support loop of `identify_trading_zones` for one body
(src/app.py lines 838-855): a buy-zone entry for each level strictly below
the current price. -/
def buy_zones_for (planet : String) (info : PlanetPriceInfo)
    (current_price : ℚ) : List TradingZone :=
  (support_items info.levels).filterMap fun item =>
    if item.2 < current_price then
      let distance_pct := |(item.2 - current_price) / current_price| * 100
      some
        { planet := planet
          level_name := item.1
          price := item.2
          distance := current_price - item.2
          distance_pct := distance_pct
          strength := info.strength
          zone_strength := zone_strength_of info.strength
          priority := priority_of distance_pct }
    else none

/-- Stable insertion ascending by the `(priority, distance)` sort key of
src/app.py lines 903-904. -/
def insert_by_zone_key (e : TradingZone) : List TradingZone → List TradingZone
  | [] => [e]
  | x :: xs =>
    if e.priority < x.priority ∨ (e.priority = x.priority ∧ e.distance ≤ x.distance) then
      e :: x :: xs
    else x :: insert_by_zone_key e xs

/-- The `list.sort(key=lambda x: (x["priority"], x["distance"]))` of
src/app.py lines 903-904 (stable insertion sort). -/
def sort_zones (l : List TradingZone) : List TradingZone :=
  l.foldr insert_by_zone_key []

/-- `identify_trading_zones` (src/app.py lines 802-910) restricted to its
price-level inputs and its first two outputs; the third output
(`high_prob_times`, built from the presentation-level intraday levels) is
out of scope here. -/
def identify_trading_zones (price_levels : List (String × PlanetPriceInfo))
    (current_price : ℚ) : List TradingZone × List TradingZone :=
  let sells := price_levels.foldr
      (fun p acc => sell_zones_for p.1 p.2 current_price ++ acc) []
  let buys := price_levels.foldr
      (fun p acc => buy_zones_for p.1 p.2 current_price ++ acc) []
  (sort_zones sells, sort_zones buys)

/-- The eight bodies of the Keplerian loop of
`get_robust_planetary_positions` (src/app.py line 600). -/
def keplerian_planets : List String :=
  ["Mercury", "Venus", "Mars", "Jupiter", "Saturn", "Uranus", "Neptune", "Pluto"]

/-- The mathematical-calculation path of `get_robust_planetary_positions`
(src/app.py lines 572-613): Sun and Moon with `retrograde` hard-coded
`False`, then the eight Keplerian planets with `retrograde` derived as
`speed < 0`; a `None` from `planet_position` is skipped. -/
def robust_positions_math (R : RealOps) (jd : ℚ) : List (String × PlanetData) :=
  let sun := sun_position R jd
  let moon := moon_position R jd
  [("Sun",
    { longitude := sun.longitude, latitude := sun.latitude,
      distance := sun.distance, speed := sun.speed,
      sign := get_zodiac_sign sun.longitude,
      degree_in_sign := pymod sun.longitude 30, retrograde := false }),
   ("Moon",
    { longitude := moon.longitude, latitude := moon.latitude,
      distance := moon.distance, speed := moon.speed,
      sign := get_zodiac_sign moon.longitude,
      degree_in_sign := pymod moon.longitude 30, retrograde := false })]
  ++ keplerian_planets.filterMap fun name =>
      (planet_position R name jd).map fun pos =>
        (name,
          { longitude := pos.longitude, latitude := pos.latitude,
            distance := pos.distance, speed := pos.speed,
            sign := get_zodiac_sign pos.longitude,
            degree_in_sign := pymod pos.longitude 30,
            retrograde := decide (pos.speed < 0) })

/-- The ordering invariant of a PriceLevelSet (spec §3):
Major_Resistance ≥ Primary_Resistance ≥ Minor_Resistance ≥ Current ≥
Minor_Support ≥ Primary_Support ≥ Major_Support. -/
def levels_ordered (L : Levels) : Prop :=
  L.major_support ≤ L.primary_support ∧ L.primary_support ≤ L.minor_support ∧
  L.minor_support ≤ L.current_level ∧ L.current_level ≤ L.minor_resistance ∧
  L.minor_resistance ≤ L.primary_resistance ∧
  L.primary_resistance ≤ L.major_resistance

instance (L : Levels) : Decidable (levels_ordered L) := by
  unfold levels_ordered; infer_instance

/-- Following the spec's words (§4.5): the priority tier assigned from the
distance-percent (1 if ≤ 1.5, 2 if ≤ 3.0, else 3). -/
def spec_priority_tier (distance_pct : ℚ) : ℕ :=
  if distance_pct ≤ 1.5 then 1 else if distance_pct ≤ 3.0 then 2 else 3

/-- Following the spec's words (§4.5): the quality tier derived from the
body's strength score (HIGH > 70, MEDIUM > 50, else LOW). -/
def spec_quality_tier (strength : ℚ) : String :=
  if 70 < strength then "HIGH" else if 50 < strength then "MEDIUM" else "LOW"

/-- Following the spec's words (§4.3): the forward (approaching) offset in
hours for a target degree: `(target - current) mod 360` remapped to
(-180, 180], divided by the floored hourly speed. -/
def spec_approaching_hours (current speed target : ℚ) : ℚ :=
  let d0 := pymod (target - current) 360
  let d := if 180 < d0 then d0 - 360 else d0
  d / speed_per_hour_of speed

/-- Following the spec's words (§4.3): the backward-looking (separating)
offset in hours: `(current - target) mod 360` similarly remapped, negated. -/
def spec_separating_hours (current speed target : ℚ) : ℚ :=
  let d0 := pymod (current - target) 360
  let d := if 180 < d0 then d0 - 360 else d0
  Neg.neg (d / speed_per_hour_of speed)

/-- Sample body state: Moon one degree past a critical degree, at the mean
lunar speed of the source (13.2°/day). -/
def moonSample : PlanetData :=
  { longitude := 1, latitude := 0, distance := 1, speed := 13.2,
    sign := "Aries", degree_in_sign := 1, retrograde := false }

/-- Sample body state with zero speed at longitude 0. -/
def stillSample : PlanetData :=
  { longitude := 0, latitude := 0, distance := 1, speed := 0,
    sign := "Aries", degree_in_sign := 0, retrograde := false }

/-- A sample price-level set around a reference price of 100. -/
def sampleLevels : Levels := ⟨104, 102, 101, 100, 99, 98, 96⟩

/-- A sample per-body price info record carrying `sampleLevels`. -/
def sampleInfo : PlanetPriceInfo :=
  { current_degree := 0, speed := 0, levels := sampleLevels, strength := 80,
    bias := 0, multiplier := 1, retrograde := false }

theorem pymod_nonneg (x : ℚ) {m : ℚ} (hm : 0 < m) : 0 ≤ pymod x m := by
  have h := Int.floor_le (x / m)
  have : (⌊x / m⌋ : ℚ) * m ≤ x / m * m := by
    exact mul_le_mul_of_nonneg_right h (le_of_lt hm)
  rw [div_mul_cancel₀ x (ne_of_gt hm)] at this
  unfold pymod
  nlinarith

theorem pymod_lt (x : ℚ) {m : ℚ} (hm : 0 < m) : pymod x m < m := by
  have h := Int.lt_floor_add_one (x / m)
  have : x / m * m < ((⌊x / m⌋ : ℚ) + 1) * m := by
    exact mul_lt_mul_of_pos_right h hm
  rw [div_mul_cancel₀ x (ne_of_gt hm)] at this
  unfold pymod
  nlinarith

/-- C2: the Julian Day conversion at year 2000, month 1, day 1, hour 12.0
returns exactly 2451545.0, the J2000.0 epoch. -/
theorem julian_day_J2000 : julian_day 2000 1 1 12.0 = 2451545.0 := by
  have h1 : Int.fdiv 1999 100 = 19 := by decide
  have h2 : Int.fdiv 19 4 = 4 := by decide
  norm_num [julian_day, pyint, h1, h2]

theorem total_multiplier_bounds (name : String) (lon spd : ℚ)
    (h : name ∈ cycle_planets) :
    0.6 ≤ total_multiplier_of name lon spd ∧
    total_multiplier_of name lon spd < 2.4 := by
  have hL0 : 0 ≤ pymod lon 360 := pymod_nonneg _ (by norm_num)
  have hL1 : pymod lon 360 < 360 := pymod_lt _ (by norm_num)
  have hm0 : 0 ≤ min (|spd| * 5) 30 := le_min (by positivity) (by norm_num)
  have hm1 : min (|spd| * 5) 30 ≤ 30 := min_le_right _ _
  simp only [cycle_planets, List.mem_cons, List.not_mem_nil, or_false] at h
  rcases h with rfl | rfl | rfl | rfl | rfl | rfl | rfl | rfl | rfl | rfl <;>
    (simp only [total_multiplier_of, planet_multipliers, Option.getD_some]
     constructor <;> linarith)

theorem mk_levels_ordered (price : ℚ) (r : Ranges) (tm bias : ℚ)
    (hp : 0 < price) (htm : 0 ≤ tm)
    (h0 : 0 ≤ r.minor) (h1 : r.minor ≤ r.primary) (h2 : r.primary ≤ r.major)
    (hb1 : -1 ≤ bias) (hb2 : bias ≤ 1) :
    levels_ordered (mk_levels price r tm bias) := by
  have hrm : 0 ≤ 1.0 - bias := by norm_num; linarith
  have hsm : 0 ≤ 1.0 + bias := by norm_num; linarith
  have d21 : 0 ≤ r.major - r.primary := by linarith
  have d10 : 0 ≤ r.primary - r.minor := by linarith
  unfold levels_ordered mk_levels
  refine ⟨?_, ?_, ?_, ?_, ?_, ?_⟩
  · nlinarith [mul_nonneg (mul_nonneg (mul_nonneg hp.le d21) htm) hsm]
  · nlinarith [mul_nonneg (mul_nonneg (mul_nonneg hp.le d10) htm) hsm]
  · nlinarith [mul_nonneg (mul_nonneg (mul_nonneg hp.le h0) htm) hsm]
  · nlinarith [mul_nonneg (mul_nonneg (mul_nonneg hp.le h0) htm) hrm]
  · nlinarith [mul_nonneg (mul_nonneg (mul_nonneg hp.le d10) htm) hrm]
  · nlinarith [mul_nonneg (mul_nonneg (mul_nonneg hp.le d21) htm) hrm]

theorem ranges_props (name : String) (h : name ∈ cycle_planets) :
    0 ≤ ((planet_ranges name).getD ⟨2.0, 1.0, 0.3⟩).minor ∧
    ((planet_ranges name).getD ⟨2.0, 1.0, 0.3⟩).minor ≤
      ((planet_ranges name).getD ⟨2.0, 1.0, 0.3⟩).primary ∧
    ((planet_ranges name).getD ⟨2.0, 1.0, 0.3⟩).primary ≤
      ((planet_ranges name).getD ⟨2.0, 1.0, 0.3⟩).major := by
  simp only [cycle_planets, List.mem_cons, List.not_mem_nil, or_false] at h
  rcases h with rfl | rfl | rfl | rfl | rfl | rfl | rfl | rfl | rfl | rfl <;>
    norm_num [planet_ranges]

theorem bias_props (name : String) :
    -1 ≤ (directional_bias name).getD 0 ∧ (directional_bias name).getD 0 ≤ 1 := by
  unfold directional_bias
  split <;> norm_num

theorem price_level_info_eq (name : String) (d : PlanetData) (price : ℚ)
    (info : PlanetPriceInfo) (h : price_level_info name d price = some info) :
    info.levels = mk_levels price ((planet_ranges name).getD ⟨2.0, 1.0, 0.3⟩)
      (total_multiplier_of name d.longitude d.speed)
      ((directional_bias name).getD 0) := by
  unfold price_level_info at h
  cases hc : PLANETARY_CYCLES name with
  | none => rw [hc] at h; cases h
  | some cyc =>
      rw [hc] at h
      have h' := Option.some.inj h
      rw [← h']

/-- C1: for every supported body state, every positive reference price and
the fixed per-body range table, the price level set produced by
`calculate_planetary_price_levels` satisfies
Major_Resistance ≥ Primary_Resistance ≥ Minor_Resistance ≥ Current ≥
Minor_Support ≥ Primary_Support ≥ Major_Support. -/
theorem derive_levels_ordering (name : String) (hname : name ∈ cycle_planets)
    (d : PlanetData) (price : ℚ) (hp : 0 < price) (info : PlanetPriceInfo)
    (h : price_level_info name d price = some info) :
    levels_ordered info.levels := by
  rw [price_level_info_eq name d price info h]
  obtain ⟨hr0, hr1, hr2⟩ := ranges_props name hname
  obtain ⟨hb1, hb2⟩ := bias_props name
  obtain ⟨htm, _⟩ := total_multiplier_bounds name d.longitude d.speed hname
  exact mk_levels_ordered _ _ _ _ hp (by linarith) hr0 hr1 hr2 hb1 hb2

/-- Witness for C1: the ordering invariant, evaluated for the Sun at
longitude 0 with zero speed and reference price 100. -/
theorem derive_levels_ordering_witness :
    "Sun" ∈ cycle_planets ∧ (0:ℚ) < 100 ∧
    ∃ info, price_level_info "Sun" stillSample 100 = some info ∧
      levels_ordered info.levels :=
  ⟨by decide, by norm_num,
    ⟨_, rfl, derive_levels_ordering "Sun" (by decide) stillSample 100
      (by norm_num) _ rfl⟩⟩

/-- C5 counterexample: a Sun body state with longitude 350 (within [0, 360))
and speed 6 gives an influence multiplier strictly above the documented
upper bound 1.4. -/
theorem influence_multiplier_exceeds_documented_bound :
    ((0:ℚ) ≤ 350 ∧ (350:ℚ) < 360) ∧ 1.4 < total_multiplier_of "Sun" 350 6 := by
  constructor
  · norm_num
  · norm_num [total_multiplier_of, planet_multipliers, pymod, abs, max_def, min_def]

/-- C5 amended: for every supported body and every body state, the influence
multiplier computed by `calculate_planetary_price_levels` lies in
[0.6, 2.4) (the documented upper bound 1.4 does not hold; 2.4 is the sharp
bound 0.6 + 0.8·(360+315)/360 + 0.3). -/
theorem influence_multiplier_bounds (name : String)
    (hname : name ∈ cycle_planets) (lon spd : ℚ) :
    0.6 ≤ total_multiplier_of name lon spd ∧
    total_multiplier_of name lon spd < 2.4 :=
  total_multiplier_bounds name lon spd hname

/-- Witness for the amended C5, at the Sun with longitude 0 and speed 0. -/
theorem influence_multiplier_bounds_witness :
    "Sun" ∈ cycle_planets ∧
    (0.6 ≤ total_multiplier_of "Sun" 0 0 ∧ total_multiplier_of "Sun" 0 0 < 2.4) :=
  ⟨by decide, influence_multiplier_bounds "Sun" (by decide) 0 0⟩

/-- C8: reference price 100, tier percentages 2 / 1 / 0.3, influence
multiplier 1 and directional bias 0 yield exactly the levels
102, 101, 100.3, 100, 99.7, 99, 98. -/
theorem derive_levels_scenario :
    mk_levels 100 ⟨2, 1, 0.3⟩ 1 0 = ⟨102, 101, 100.3, 100, 99.7, 99, 98⟩ := by
  norm_num [mk_levels, Levels.mk.injEq]

/-- C3: for every body identifier not in the fixed set of supported bodies,
`planet_position` signals the error (returns `None`) rather than a normal
result. -/
theorem planet_position_unknown_body (R : RealOps) (jd : ℚ) (name : String)
    (h : name ∉ keplerian_planets) : planet_position R name jd = none := by
  have he : elements name = none := by
    unfold elements
    split <;> simp_all [keplerian_planets]
  unfold planet_position
  rw [he]

/-- Witness for C3 at the unknown body identifier "Vulcan". -/
theorem planet_position_unknown_body_witness :
    "Vulcan" ∉ keplerian_planets ∧
    planet_position RealOps.zeroOps "Vulcan" 2451545 = none :=
  ⟨by decide, planet_position_unknown_body RealOps.zeroOps 2451545 "Vulcan" (by decide)⟩

theorem elements_some_of_position (R : RealOps) (name : String) (jd : ℚ)
    (pos : BodyPos) (h : planet_position R name jd = some pos) :
    ∃ elem, elements name = some elem := by
  unfold planet_position at h
  cases he : elements name with
  | none => rw [he] at h; cases h
  | some e => exact ⟨e, rfl⟩

theorem planet_position_long_bounds (R : RealOps) (name : String) (jd : ℚ)
    (elem : OrbitalElements) (pos : BodyPos) (he : elements name = some elem)
    (h : planet_position R name jd = some pos) :
    0 ≤ pos.longitude ∧ pos.longitude < 360 := by
  unfold planet_position at h
  rw [he] at h
  have h' := Option.some.inj h
  subst h'
  exact ⟨pymod_nonneg _ (by norm_num), pymod_lt _ (by norm_num)⟩

theorem planet_position_speed (R : RealOps) (name : String) (jd : ℚ)
    (elem : OrbitalElements) (pos : BodyPos) (he : elements name = some elem)
    (h : planet_position R name jd = some pos) :
    pos.speed = elem.L_dot / 36525 := by
  unfold planet_position at h
  rw [he] at h
  have h' := Option.some.inj h
  subst h'
  show elem.L_dot / 36525.0 = elem.L_dot / 36525
  norm_num

/-- C7: for every supported body, every transcendental oracle and every
Julian Day, the longitude of the computed body state lies in [0, 360). -/
theorem position_longitude_in_range (R : RealOps) (jd : ℚ) :
    (0 ≤ (sun_position R jd).longitude ∧ (sun_position R jd).longitude < 360) ∧
    (0 ≤ (moon_position R jd).longitude ∧ (moon_position R jd).longitude < 360) ∧
    ∀ (name : String) (pos : BodyPos), planet_position R name jd = some pos →
      0 ≤ pos.longitude ∧ pos.longitude < 360 := by
  refine ⟨⟨pymod_nonneg _ (by norm_num), pymod_lt _ (by norm_num)⟩,
          ⟨pymod_nonneg _ (by norm_num), pymod_lt _ (by norm_num)⟩, ?_⟩
  intro name pos h
  obtain ⟨elem, he⟩ := elements_some_of_position R name jd pos h
  exact planet_position_long_bounds R name jd elem pos he h

/-- Witness for C7: Mercury at the J2000.0 epoch under the trivial oracle. -/
theorem position_longitude_in_range_witness :
    ∃ pos, planet_position RealOps.zeroOps "Mercury" 2451545 = some pos ∧
      0 ≤ pos.longitude ∧ pos.longitude < 360 :=
  ⟨_, rfl, (position_longitude_in_range RealOps.zeroOps 2451545).2.2 "Mercury" _ rfl⟩

theorem elements_L_dot_pos (name : String) (elem : OrbitalElements)
    (he : elements name = some elem) : 0 < elem.L_dot := by
  unfold elements at he
  split at he <;> cases he <;> norm_num

/-- C10: for each of the eight Keplerian planets, at every Julian Day and
under every oracle, the speed produced by the mathematical-calculation path
equals the constant `L_dot / 36525` of that planet (independent of the
Julian Day), is strictly positive, and the derived retrograde flag
(`speed < 0`) is therefore `False`. -/
theorem keplerian_speed_props (R : RealOps) (jd : ℚ) (name : String)
    (hname : name ∈ keplerian_planets) (d : PlanetData)
    (h : (name, d) ∈ robust_positions_math R jd) :
    ∃ elem, elements name = some elem ∧ d.speed = elem.L_dot / 36525 ∧
      0 < d.speed ∧ d.retrograde = false := by
  unfold robust_positions_math at h
  rw [List.mem_append] at h
  rcases h with h | h
  · simp only [List.mem_cons, List.not_mem_nil, or_false, Prod.mk.injEq] at h
    rcases h with ⟨rfl, -⟩ | ⟨rfl, -⟩ <;> simp [keplerian_planets] at hname
  · rw [List.mem_filterMap] at h
    obtain ⟨n, hn, hmap⟩ := h
    rw [Option.map_eq_some'] at hmap
    obtain ⟨pos, hpos, heq⟩ := hmap
    injection heq with h1 h2
    subst h1
    subst h2
    obtain ⟨elem, he⟩ := elements_some_of_position R _ jd pos hpos
    have hspd := planet_position_speed R _ jd elem pos he hpos
    have hL : 0 < elem.L_dot := elements_L_dot_pos _ elem he
    have hsp : 0 < pos.speed := by
      rw [hspd]; exact div_pos hL (by norm_num)
    refine ⟨elem, he, ?_, ?_, ?_⟩
    · exact hspd
    · exact hsp
    · show decide (pos.speed < 0) = false
      simp only [decide_eq_false_iff_not, not_lt]
      exact le_of_lt hsp

/-- Witness for C10: Mercury at the J2000.0 epoch under the trivial oracle. -/
theorem keplerian_speed_props_witness :
    "Mercury" ∈ keplerian_planets ∧
    ∃ d, ("Mercury", d) ∈ robust_positions_math RealOps.zeroOps 2451545 ∧
      ∃ elem, elements "Mercury" = some elem ∧ d.speed = elem.L_dot / 36525 ∧
        0 < d.speed ∧ d.retrograde = false := by
  have hmem : ∃ d, ("Mercury", d) ∈ robust_positions_math RealOps.zeroOps 2451545 :=
    ⟨_, List.mem_append_right _ (List.mem_filterMap.mpr ⟨"Mercury", by decide, rfl⟩)⟩
  obtain ⟨d, hd⟩ := hmem
  exact ⟨by decide, d, hd,
    keplerian_speed_props RealOps.zeroOps 2451545 "Mercury" (by decide) d hd⟩

theorem countP_insert_by_abs_hours (p : CycleEvent → Bool) (e : CycleEvent)
    (l : List CycleEvent) :
    (insert_by_abs_hours e l).countP p = ((e :: l).countP p) := by
  induction l with
  | nil => rfl
  | cons x xs ih =>
    unfold insert_by_abs_hours
    split
    · rfl
    · simp only [List.countP_cons, ih]
      ring

theorem countP_sort_cycles (p : CycleEvent → Bool) (l : List CycleEvent) :
    (sort_cycles l).countP p = l.countP p := by
  induction l with
  | nil => rfl
  | cons x xs ih =>
    show (insert_by_abs_hours x (sort_cycles xs)).countP p = _
    rw [countP_insert_by_abs_hours]
    simp only [List.countP_cons, ih]

theorem mem_insert_by_abs_hours {e x : CycleEvent} {l : List CycleEvent} :
    x ∈ insert_by_abs_hours e l ↔ x = e ∨ x ∈ l := by
  induction l with
  | nil => simp [insert_by_abs_hours]
  | cons y ys ih =>
    unfold insert_by_abs_hours
    split
    · simp [List.mem_cons]
    · simp only [List.mem_cons, ih]
      tauto

theorem mem_sort_cycles {x : CycleEvent} {l : List CycleEvent} :
    x ∈ sort_cycles l ↔ x ∈ l := by
  induction l with
  | nil => simp [sort_cycles]
  | cons y ys ih =>
    show x ∈ insert_by_abs_hours y (sort_cycles ys) ↔ _
    rw [mem_insert_by_abs_hours]
    simp [ih]

theorem mem_foldr_append {α β : Type} (f : α → List β) (l : List α) (x : β) :
    x ∈ l.foldr (fun p acc => f p ++ acc) [] ↔ ∃ p ∈ l, x ∈ f p := by
  induction l with
  | nil => simp
  | cons y ys ih => simp [List.mem_append, ih]

/-- C6: a zero angular speed raises no division error in
`calculate_time_cycles`: the per-hour speed is floored at the positive
epsilon 0.001 before dividing, and every emitted hours offset is finite
(bounded by the 24-hour horizon). -/
theorem speed_zero_no_division_error :
    speed_per_hour_of 0 = 0.001 ∧
    (∀ spd : ℚ, 0.001 ≤ speed_per_hour_of spd) ∧
    ∀ (pd : List (String × PlanetData)) (base : ℚ) (e : CycleEvent),
      e ∈ calculate_time_cycles pd base → |e.hours_away| ≤ 24 := by
  refine ⟨?_, ?_, ?_⟩
  · norm_num [speed_per_hour_of, abs, max_def]
  · intro spd
    exact le_max_right _ _
  · intro pd base e he
    unfold calculate_time_cycles at he
    rw [mem_sort_cycles, mem_foldr_append] at he
    obtain ⟨p, -, he⟩ := he
    unfold cycle_events_for at he
    cases hc : PLANETARY_CYCLES p.1 with
    | none => rw [hc] at he; cases he
    | some cyc =>
      rw [hc] at he
      simp only [List.mem_filterMap] at he
      obtain ⟨t, -, hsome⟩ := he
      simp only [cycle_event_opt] at hsome
      split at hsome
      · rename_i hcond
        have h' := Option.some.inj hsome
        subst h'
        exact hcond.2
      · cases hsome

theorem cycles_still_eval :
    calculate_time_cycles [("Sun", stillSample)] 0 =
      [{ planet := "Sun", target_degree := 0, time_ist := 0, hours_away := 0,
         strength := 50 }] := by
  have h360 : (⌊(0 : ℚ) / 360⌋ : ℤ) = 0 := by norm_num
  norm_num [calculate_time_cycles, cycle_events_for, cycle_event_opt, PLANETARY_CYCLES,
    stillSample, hours_to_target_of, speed_per_hour_of, pymod, abs, max_def,
    min_def, sort_cycles, insert_by_abs_hours, List.filterMap_cons,
    List.filterMap_nil, CycleEvent.mk.injEq]

theorem cycles_moon_eval :
    calculate_time_cycles [("Moon", moonSample)] 0 =
      [{ planet := "Moon", target_degree := 0, time_ist := -20/11,
         hours_away := -20/11, strength := 530/11 }] := by
  norm_num [calculate_time_cycles, cycle_events_for, cycle_event_opt, PLANETARY_CYCLES,
    moonSample, hours_to_target_of, speed_per_hour_of, pymod, abs, max_def,
    min_def, sort_cycles, insert_by_abs_hours, List.filterMap_cons,
    List.filterMap_nil, CycleEvent.mk.injEq]

/-- Witness for C6: a single body with angular speed exactly 0 produces a
well-defined, finite, in-horizon offset. -/
theorem speed_zero_no_division_error_witness :
    speed_per_hour_of 0 = 0.001 ∧
    |CycleEvent.hours_away
      { planet := "Sun", target_degree := 0, time_ist := 0, hours_away := 0,
        strength := 50 }| ≤ 24 :=
  ⟨speed_zero_no_division_error.1,
   speed_zero_no_division_error.2.2 [("Sun", stillSample)] 0 _
     (by rw [cycles_still_eval]; exact List.mem_singleton_self _)⟩

theorem cycle_event_opt_target (pn : String) (cd spd base x : ℚ) (e : CycleEvent)
    (h : cycle_event_opt pn cd spd base x = some e) : e.target_degree = x := by
  simp only [cycle_event_opt] at h
  split at h
  · have h' := Option.some.inj h
    rw [← h']
  · cases h

theorem cycle_event_opt_isSome (pn : String) (cd spd base t : ℚ) :
    (cycle_event_opt pn cd spd base t).isSome = true ↔
      |hours_to_target_of cd spd t| ≤ 24 := by
  simp only [cycle_event_opt]
  split
  · rename_i hcond
    simp [hcond.2]
  · rename_i hcond
    rw [not_and] at hcond
    simp [hcond (abs_nonneg _)]

theorem countP_filterMap_targets_zero (f : ℚ → Option CycleEvent) (t : ℚ)
    (hf : ∀ x e, f x = some e → e.target_degree = x) (l : List ℚ) :
    t ∉ l →
      (l.filterMap f).countP (fun e => decide (e.target_degree = t)) = 0 := by
  induction l with
  | nil => intro _; rfl
  | cons x xs ih =>
    intro ht
    simp only [List.mem_cons, not_or] at ht
    obtain ⟨hne, hnotin⟩ := ht
    cases hfx : f x with
    | none =>
      simp only [List.filterMap_cons, hfx]
      exact ih hnotin
    | some e =>
      simp only [List.filterMap_cons, hfx, List.countP_cons]
      rw [ih hnotin]
      have hte : e.target_degree = x := hf x e hfx
      have hxt : ¬ (e.target_degree = t) := by
        rw [hte]; exact fun hh => hne hh.symm
      simp [hxt]

theorem countP_filterMap_targets_le_one (f : ℚ → Option CycleEvent) (t : ℚ)
    (hf : ∀ x e, f x = some e → e.target_degree = x) (l : List ℚ) :
    l.Nodup →
      (l.filterMap f).countP (fun e => decide (e.target_degree = t)) ≤ 1 := by
  induction l with
  | nil => intro _; simp
  | cons x xs ih =>
    intro hl
    obtain ⟨hxnotin, hxs⟩ := List.nodup_cons.mp hl
    cases hfx : f x with
    | none =>
      simp only [List.filterMap_cons, hfx]
      exact ih hxs
    | some e =>
      simp only [List.filterMap_cons, hfx, List.countP_cons]
      have hte : e.target_degree = x := hf x e hfx
      by_cases hxt : x = t
      · subst hxt
        rw [countP_filterMap_targets_zero f x hf xs hxnotin]
        simp [hte]
      · have hnt : ¬ (e.target_degree = t) := by rw [hte]; exact hxt
        simp only [hnt, decide_False, if_false, add_zero]
        exact ih hxs

/-- C4 counterexample: for the Moon one degree past target degree 0 at
13.2°/day, the approaching and the separating offsets (as the spec defines
them) are both within the 24-hour horizon, yet `calculate_time_cycles`
emits exactly one event for that target, not two. -/
theorem separating_direction_not_emitted :
    (|spec_approaching_hours 1 13.2 0| ≤ 24 ∧
     |spec_separating_hours 1 13.2 0| ≤ 24) ∧
    (calculate_time_cycles [("Moon", moonSample)] 0).countP
      (fun e => decide (e.target_degree = 0)) = 1 := by
  refine ⟨⟨?_, ?_⟩, ?_⟩
  · norm_num [spec_approaching_hours, speed_per_hour_of, pymod, abs, max_def]
  · norm_num [spec_separating_hours, speed_per_hour_of, pymod, abs, max_def]
  · rw [cycles_moon_eval]
    norm_num [List.countP_cons, List.countP_nil]

/-- C4 amended: for every supported body and every target degree of its
critical-degree table, `calculate_time_cycles` computes only the single
signed shortest-path offset `(target - current) mod 360` remapped to
(-180, 180] and emits at most one event per target — exactly one when that
offset's absolute hours value is within the 24-hour horizon — with no
separate separating-direction event. -/
theorem cycles_single_event_per_target (name : String)
    (hname : name ∈ cycle_planets) (cyc : CycleInfo)
    (hcyc : PLANETARY_CYCLES name = some cyc) (d : PlanetData) (base t : ℚ) :
    (calculate_time_cycles [(name, d)] base).countP
        (fun e => decide (e.target_degree = t)) ≤ 1 ∧
    (t ∈ cyc.major_degrees →
      ((∃ e ∈ calculate_time_cycles [(name, d)] base, e.target_degree = t) ↔
        |hours_to_target_of (pymod d.longitude 360) d.speed t| ≤ 24)) := by
  have hcalc : calculate_time_cycles [(name, d)] base =
      sort_cycles (cycle_events_for name d base) := by
    show sort_cycles (cycle_events_for name d base ++ []) = _
    rw [List.append_nil]
  have hev : cycle_events_for name d base =
      cyc.major_degrees.filterMap
        (cycle_event_opt name (pymod d.longitude 360) d.speed base) := by
    unfold cycle_events_for
    rw [hcyc]
  have hnodup : cyc.major_degrees.Nodup := by
    simp only [cycle_planets, List.mem_cons, List.not_mem_nil, or_false] at hname
    rcases hname with rfl | rfl | rfl | rfl | rfl | rfl | rfl | rfl | rfl | rfl <;>
      (cases hcyc; decide)
  constructor
  · rw [hcalc, countP_sort_cycles, hev]
    exact countP_filterMap_targets_le_one _ t
      (cycle_event_opt_target name _ d.speed base) cyc.major_degrees hnodup
  · intro htmem
    rw [hcalc]
    constructor
    · rintro ⟨e, hmem, htgt⟩
      rw [mem_sort_cycles, hev, List.mem_filterMap] at hmem
      obtain ⟨x, -, hsome⟩ := hmem
      have hx : e.target_degree = x :=
        cycle_event_opt_target name _ d.speed base x e hsome
      rw [htgt] at hx
      subst hx
      have : (cycle_event_opt name (pymod d.longitude 360) d.speed base t).isSome
          = true := by rw [hsome]; rfl
      exact (cycle_event_opt_isSome name _ d.speed base t).mp this
    · intro hbound
      have hsome : (cycle_event_opt name (pymod d.longitude 360) d.speed base
          t).isSome = true :=
        (cycle_event_opt_isSome name _ d.speed base t).mpr hbound
      rw [Option.isSome_iff_exists] at hsome
      obtain ⟨e, he⟩ := hsome
      refine ⟨e, ?_, cycle_event_opt_target name _ d.speed base t e he⟩
      rw [mem_sort_cycles, hev, List.mem_filterMap]
      exact ⟨t, htmem, he⟩

/-- Witness for the amended C4: the Moon body state of the counterexample,
at target degree 0. -/
theorem cycles_single_event_per_target_witness :
    (calculate_time_cycles [("Moon", moonSample)] 0).countP
        (fun e => decide (e.target_degree = 0)) ≤ 1 :=
  (cycles_single_event_per_target "Moon" (by decide)
    ⟨2.2, [0, 90, 180, 270], "Intraday volatility spikes"⟩ rfl
    moonSample 0 0).1

theorem mem_insert_by_zone_key {e x : TradingZone} {l : List TradingZone} :
    x ∈ insert_by_zone_key e l ↔ x = e ∨ x ∈ l := by
  induction l with
  | nil => simp [insert_by_zone_key]
  | cons y ys ih =>
    unfold insert_by_zone_key
    split
    · simp [List.mem_cons]
    · simp only [List.mem_cons, ih]
      tauto

theorem mem_sort_zones {x : TradingZone} {l : List TradingZone} :
    x ∈ sort_zones l ↔ x ∈ l := by
  induction l with
  | nil => simp [sort_zones]
  | cons y ys ih =>
    show x ∈ insert_by_zone_key y (sort_zones ys) ↔ _
    rw [mem_insert_by_zone_key]
    simp [ih]

theorem sell_zones_for_props (planet : String) (info : PlanetPriceInfo) (cp : ℚ) :
    ∀ z ∈ sell_zones_for planet info cp,
      cp < z.price ∧ z.strength = info.strength ∧
      z.priority = spec_priority_tier z.distance_pct ∧
      z.zone_strength = spec_quality_tier z.strength := by
  intro z hz
  simp only [sell_zones_for, List.mem_filterMap] at hz
  obtain ⟨item, -, hsome⟩ := hz
  split at hsome
  · rename_i hlt
    have h' := Option.some.inj hsome
    subst h'
    exact ⟨hlt, rfl, rfl, rfl⟩
  · cases hsome

theorem buy_zones_for_props (planet : String) (info : PlanetPriceInfo) (cp : ℚ) :
    ∀ z ∈ buy_zones_for planet info cp,
      z.price < cp ∧ z.strength = info.strength ∧
      z.priority = spec_priority_tier z.distance_pct ∧
      z.zone_strength = spec_quality_tier z.strength := by
  intro z hz
  simp only [buy_zones_for, List.mem_filterMap] at hz
  obtain ⟨item, -, hsome⟩ := hz
  split at hsome
  · rename_i hlt
    have h' := Option.some.inj hsome
    subst h'
    exact ⟨hlt, rfl, rfl, rfl⟩
  · cases hsome

theorem sell_zones_for_complete (planet : String) (info : PlanetPriceInfo)
    (cp : ℚ) :
    ∀ item ∈ resistance_items info.levels, cp < item.2 →
      ∃ z ∈ sell_zones_for planet info cp,
        z.planet = planet ∧ z.level_name = item.1 ∧ z.price = item.2 ∧
        z.strength = info.strength ∧
        z.distance_pct = (item.2 - cp) / cp * 100 := by
  intro item hitem hlt
  refine ⟨{ planet := planet, level_name := item.1, price := item.2,
            distance := item.2 - cp, distance_pct := (item.2 - cp) / cp * 100,
            strength := info.strength,
            zone_strength := zone_strength_of info.strength,
            priority := priority_of ((item.2 - cp) / cp * 100) },
          ?_, rfl, rfl, rfl, rfl, rfl⟩
  simp only [sell_zones_for, List.mem_filterMap]
  exact ⟨item, hitem, by rw [if_pos hlt]⟩

theorem buy_zones_for_complete (planet : String) (info : PlanetPriceInfo)
    (cp : ℚ) :
    ∀ item ∈ support_items info.levels, item.2 < cp →
      ∃ z ∈ buy_zones_for planet info cp,
        z.planet = planet ∧ z.level_name = item.1 ∧ z.price = item.2 ∧
        z.strength = info.strength ∧
        z.distance_pct = |(item.2 - cp) / cp| * 100 := by
  intro item hitem hlt
  refine ⟨{ planet := planet, level_name := item.1, price := item.2,
            distance := cp - item.2, distance_pct := |(item.2 - cp) / cp| * 100,
            strength := info.strength,
            zone_strength := zone_strength_of info.strength,
            priority := priority_of (|(item.2 - cp) / cp| * 100) },
          ?_, rfl, rfl, rfl, rfl, rfl⟩
  simp only [buy_zones_for, List.mem_filterMap]
  exact ⟨item, hitem, by rw [if_pos hlt]⟩

/-- C9: every sell-zone entry produced by `identify_trading_zones` lies
strictly above the reference price with the spec's priority tier
(1 if ≤ 1.5%, 2 if ≤ 3.0%, else 3) and quality tier (HIGH > 70,
MEDIUM > 50, else LOW); symmetrically for buy zones below the reference
price; and every resistance (support) level strictly above (below) the
reference price yields such an entry, while levels on the wrong side yield
none (every entry is strictly on the correct side). -/
theorem trading_zone_classification (pls : List (String × PlanetPriceInfo))
    (cp : ℚ) :
    (∀ z ∈ (identify_trading_zones pls cp).1,
        cp < z.price ∧ z.priority = spec_priority_tier z.distance_pct ∧
        z.zone_strength = spec_quality_tier z.strength) ∧
    (∀ z ∈ (identify_trading_zones pls cp).2,
        z.price < cp ∧ z.priority = spec_priority_tier z.distance_pct ∧
        z.zone_strength = spec_quality_tier z.strength) ∧
    ∀ p ∈ pls,
      (∀ item ∈ resistance_items p.2.levels, cp < item.2 →
        ∃ z ∈ (identify_trading_zones pls cp).1,
          z.planet = p.1 ∧ z.level_name = item.1 ∧ z.price = item.2 ∧
          z.strength = p.2.strength ∧
          z.distance_pct = (item.2 - cp) / cp * 100) ∧
      (∀ item ∈ support_items p.2.levels, item.2 < cp →
        ∃ z ∈ (identify_trading_zones pls cp).2,
          z.planet = p.1 ∧ z.level_name = item.1 ∧ z.price = item.2 ∧
          z.strength = p.2.strength ∧
          z.distance_pct = |(item.2 - cp) / cp| * 100) := by
  have h1 : (identify_trading_zones pls cp).1 =
      sort_zones (pls.foldr (fun p acc => sell_zones_for p.1 p.2 cp ++ acc) []) :=
    rfl
  have h2 : (identify_trading_zones pls cp).2 =
      sort_zones (pls.foldr (fun p acc => buy_zones_for p.1 p.2 cp ++ acc) []) :=
    rfl
  refine ⟨?_, ?_, ?_⟩
  · intro z hz
    rw [h1, mem_sort_zones, mem_foldr_append] at hz
    obtain ⟨p, -, hz⟩ := hz
    obtain ⟨hlt, -, hprio, hq⟩ := sell_zones_for_props p.1 p.2 cp z hz
    exact ⟨hlt, hprio, hq⟩
  · intro z hz
    rw [h2, mem_sort_zones, mem_foldr_append] at hz
    obtain ⟨p, -, hz⟩ := hz
    obtain ⟨hlt, -, hprio, hq⟩ := buy_zones_for_props p.1 p.2 cp z hz
    exact ⟨hlt, hprio, hq⟩
  · intro p hp
    constructor
    · intro item hitem hlt
      obtain ⟨z, hzmem, hprops⟩ :=
        sell_zones_for_complete p.1 p.2 cp item hitem hlt
      refine ⟨z, ?_, hprops⟩
      rw [h1, mem_sort_zones, mem_foldr_append]
      exact ⟨p, hp, hzmem⟩
    · intro item hitem hlt
      obtain ⟨z, hzmem, hprops⟩ :=
        buy_zones_for_complete p.1 p.2 cp item hitem hlt
      refine ⟨z, ?_, hprops⟩
      rw [h2, mem_sort_zones, mem_foldr_append]
      exact ⟨p, hp, hzmem⟩

/-- Witness for C9: the sample level set around reference price 100; its
minor resistance 101 (1% above) yields a sell-zone entry. -/
theorem trading_zone_classification_witness :
    ("Minor Resistance", (101:ℚ)) ∈ resistance_items sampleInfo.levels ∧
    (100:ℚ) < 101 ∧
    ∃ z ∈ (identify_trading_zones [("Sun", sampleInfo)] 100).1,
      z.planet = "Sun" ∧ z.level_name = "Minor Resistance" ∧ z.price = 101 ∧
      z.strength = sampleInfo.strength ∧
      z.distance_pct = ((101:ℚ) - 100) / 100 * 100 := by
  have hitem : ("Minor Resistance", (101:ℚ)) ∈ resistance_items sampleInfo.levels := by
    simp [resistance_items, sampleInfo, sampleLevels]
  refine ⟨hitem, by norm_num, ?_⟩
  exact ((trading_zone_classification [("Sun", sampleInfo)] 100).2.2
    ("Sun", sampleInfo) (List.mem_singleton_self _)).1
    ("Minor Resistance", 101) hitem (by norm_num)
